import Mathlib

/-!
Verification of the v0.2 block API core of the zksync repository
(file src/core/bin/zksync_api/src/api_server/rest/v02/block.rs):
the block-position resolver, the cached block-details lookup, and the
pagination glue of the query facade. Pure functions below mirror the
source; storage is an explicit value and every backing-store access is
recorded in an access trace, so that claims about which storage
operations a call performs become statements about that trace.
-/

/-- An opaque backing-store error (the underlying `anyhow` error of the
source is opaque to this layer; only its identity matters). -/
structure StorageErr where
  code : Nat
deriving DecidableEq, Repr

/-- The error type of the v0.2 API layer, restricted to the variants the
block endpoints produce: `InvalidDataError::InvalidBlockPosition`
(an invalid-input error) and `Error::storage` wrapping a store error. -/
inductive Error where
  | invalidBlockPosition : Error
  | storage : StorageErr → Error
deriving DecidableEq, Repr

/-- The error kind taxonomy of the spec: invalid input vs storage failure. -/
inductive ErrorKind where
  | invalidInput : ErrorKind
  | storageFailure : ErrorKind
deriving DecidableEq, Repr

/-- Kind of each concrete error value. -/
def Error.kind : Error → ErrorKind
  | .invalidBlockPosition => .invalidInput
  | .storage _ => .storageFailure

/-- Block details as stored: number, the finalized/verified flag, and an
opaque payload standing for the remaining immutable fields. -/
structure BlockDetails where
  block_number : Nat
  verified : Bool
  payload : Nat
deriving DecidableEq, Repr

/-- The public block-info shape returned by the API. -/
structure BlockInfo where
  block_number : Nat
  payload : Nat
deriving DecidableEq, Repr

/-- A transaction record: its hash and the number of the unique block
holding it. -/
structure Tx where
  tx_hash : Nat
  block_number : Nat
deriving DecidableEq, Repr

/-- Pagination direction (`PaginationDirection` in zksync_types). -/
inductive PaginationDirection where
  | newer : PaginationDirection
  | older : PaginationDirection
deriving DecidableEq, Repr

/-- `PaginationQuery<C>` of zksync_types: cursor, limit, direction.
The `from` field is spelled `from_` because `from` is reserved in Lean. -/
structure PaginationQuery (C : Type) where
  from_ : C
  limit : Nat
  direction : PaginationDirection
deriving DecidableEq, Repr

/-- `Paginated<T, C>` of zksync_types: the page, the total count of items
in scope, and the echoed limit, direction and cursor. -/
structure Paginated (T C : Type) where
  list : List T
  count : Nat
  limit : Nat
  direction : PaginationDirection
  from_ : C
deriving DecidableEq, Repr

/-- `BlockAndTxHash` of zksync_types: the composite cursor for
transaction listings. -/
structure BlockAndTxHash where
  block_number : Nat
  tx_hash : Nat
deriving DecidableEq, Repr

/-- The backing store as seen through the operations this core uses:
last committed block number, last verified block number, block details by
number, plus the block list and the transaction list that the pagination
engine reads. `pageErr` injects a store failure into pagination calls. -/
structure Store where
  lastCommitted : Except StorageErr Nat
  lastVerified : Except StorageErr Nat
  blockDetails : Nat → Except StorageErr (Option BlockDetails)
  blocks : List BlockInfo
  txs : List Tx
  pageErr : Option StorageErr

/-- One backing-store access, as recorded in the access trace of each
operation below. -/
inductive StorageAccess where
  | lastCommittedQuery : StorageAccess
  | lastVerifiedQuery : StorageAccess
  | blockDetailsQuery : Nat → StorageAccess
  | paginateBlocksQuery : PaginationQuery Nat → StorageAccess
  | paginateTxsQuery : PaginationQuery BlockAndTxHash → StorageAccess
deriving DecidableEq, Repr

/-- True for the ASCII digits 0..9, the only characters `u32::from_str`
accepts after the optional sign. -/
def isAsciiDigit (c : Char) : Bool := 48 ≤ c.toNat && c.toNat ≤ 57

/-- Decimal value of a digit string, most significant digit first. -/
def digitsVal (cs : List Char) : Nat :=
  cs.foldl (fun acc c => acc * 10 + (c.toNat - 48)) 0

/-- Model of Rust `u32::from_str`: an optional leading plus sign, then a
non-empty run of ASCII digits; any other character and any value past
`u32::MAX` yield an error (`None` here). -/
def u32_from_str (s : String) : Option Nat :=
  let cs := s.toList
  let ds := if cs.head? = some '+' then cs.tail else cs
  if ds.isEmpty then none
  else if ds.all isAsciiDigit then
    if digitsVal ds < 4294967296 then some (digitsVal ds) else none
  else none

/-- `ApiBlockData::get_block_number_by_position` (block.rs lines 49-68):
numeric positions are returned directly; `last_committed` and
`last_finalized` query the store; anything else is an
`InvalidBlockPosition` error. The second component is the trace of
backing-store accesses the call performs. -/
def get_block_number_by_position (store : Store) (block_position : String) :
    Except Error Nat × List StorageAccess :=
  match u32_from_str block_position with
  | some number => (.ok number, [])
  | none =>
    if block_position = "last_committed" then
      match store.lastCommitted with
      | .ok number => (.ok number, [.lastCommittedQuery])
      | .error err => (.error (.storage err), [.lastCommittedQuery])
    else if block_position = "last_finalized" then
      match store.lastVerified with
      | .ok number => (.ok number, [.lastVerifiedQuery])
      | .error err => (.error (.storage err), [.lastVerifiedQuery])
    else
      (.error .invalidBlockPosition, [])

/-- Cache state: an association list from block number to the cached
details (the bounded map of `BlockDetailsCache`). -/
abbrev Cache : Type := List (Nat × BlockDetails)

/-- Modelled from the spec: `BlockDetailsCache::get` — the implementation
in crate::utils::block_details_cache is not among the included sources.
Per spec section 4.1: on a hit return the stored value with no backing
call; on a miss query the store once; a missing block (`None`) is
returned and not cached; a verified block is inserted before returning;
a pending block is returned without being cached. The capacity bound and
its recency-based eviction are not modelled: eviction never removes the
entry inserted by the immediately preceding call, which is all the
claims here touch. -/
def cache_get (store : Store) (cache : Cache) (block_number : Nat) :
    Except StorageErr (Option BlockDetails) × Cache × List StorageAccess :=
  match List.lookup block_number cache with
  | some details => (.ok (some details), cache, [])
  | none =>
    match store.blockDetails block_number with
    | .error err => (.error err, cache, [.blockDetailsQuery block_number])
    | .ok none => (.ok none, cache, [.blockDetailsQuery block_number])
    | .ok (some details) =>
      if details.verified then
        (.ok (some details), (block_number, details) :: cache,
          [.blockDetailsQuery block_number])
      else
        (.ok (some details), cache, [.blockDetailsQuery block_number])

/-- `ApiBlockData::block_info` (block.rs lines 42-47): the cache lookup
with store errors wrapped by `Error::storage`. -/
def block_info (store : Store) (cache : Cache) (block_number : Nat) :
    Except Error (Option BlockDetails) × Cache × List StorageAccess :=
  match cache_get store cache block_number with
  | (.ok v, c, accs) => (.ok v, c, accs)
  | (.error err, c, accs) => (.error (.storage err), c, accs)

/-- Modelled from the spec: `BlockInfo::from` of zksync_api_client (not
among the included sources) — the value-level mapping of stored block
details to the public block-info shape. -/
def blockInfoOfDetails (details : BlockDetails) : BlockInfo :=
  { block_number := details.block_number, payload := details.payload }

/-- The slice of an in-scope item sequence selected by a cursor position
`idx`, a limit and a direction: `newer` moves forward from the cursor,
`older` backward, each bounded by `limit`, with the page emitted in
ascending order. -/
def pageSlice {α : Type} (inScope : List α) (idx limit : Nat) :
    PaginationDirection → List α
  | .newer => (inScope.drop (idx + 1)).take limit
  | .older => ((inScope.take idx).reverse.take limit).reverse

/-- The slice of the block sequence selected by a block-number cursor:
`newer` takes blocks strictly above the cursor in ascending order,
`older` the up-to-`limit` blocks strictly below it nearest to it, emitted
in ascending order. -/
def blockSlice (blocks : List BlockInfo) (cursor limit : Nat) :
    PaginationDirection → List BlockInfo
  | .newer => (blocks.filter (fun b => cursor < b.block_number)).take limit
  | .older =>
    ((blocks.filter (fun b => b.block_number < cursor)).reverse.take
      limit).reverse

/-- The transactions in scope for a composite cursor: exactly those of
the block the cursor names, in store order. -/
def txScope (store : Store) (block_number : Nat) : List Tx :=
  store.txs.filter (fun t => t.block_number == block_number)

/-- Modelled from the spec: the storage pagination engine for block
listings (the `Paginate` impl lives in zksync_storage, not among the
included sources). Per spec section 4.3: `newer` returns items with
cursor strictly greater than `from_` in ascending order up to `limit`;
`older` returns the up-to-`limit` items with cursor strictly below
`from_` nearest to it, emitted in ascending order; `count` is the total
number of items in scope regardless of `limit`; store errors propagate. -/
def paginate_blocks (store : Store) (query : PaginationQuery Nat) :
    Except StorageErr (Paginated BlockInfo Nat) :=
  match store.pageErr with
  | some err => .error err
  | none =>
    .ok { list := blockSlice store.blocks query.from_ query.limit query.direction,
          count := store.blocks.length, limit := query.limit,
          direction := query.direction, from_ := query.from_ }

/-- Modelled from the spec: the storage pagination engine for transaction
listings under the composite cursor (the `Paginate` impl lives in
zksync_storage, not among the included sources). Per spec sections 4.3
and 3: the `block_number` component of the cursor pins the scope to that
one block; within the scope the cursor position is located by `tx_hash`;
`newer` moves forward, `older` backward, each bounded by `limit` with the
page emitted in ascending order; `count` is the total number of
transactions of the block regardless of `limit`; store errors
propagate. -/
def paginate_txs (store : Store) (query : PaginationQuery BlockAndTxHash) :
    Except StorageErr (Paginated Tx BlockAndTxHash) :=
  match store.pageErr with
  | some err => .error err
  | none =>
    .ok { list := pageSlice (txScope store query.from_.block_number)
            ((txScope store query.from_.block_number).findIdx
              (fun t => t.tx_hash == query.from_.tx_hash))
            query.limit query.direction,
          count := (txScope store query.from_.block_number).length,
          limit := query.limit,
          direction := query.direction, from_ := query.from_ }

/-- `ApiBlockData::block_page` (block.rs lines 70-76): pagination over the
block sequence, store errors wrapped by `Error::storage`. -/
def block_page (store : Store) (query : PaginationQuery Nat) :
    Except Error (Paginated BlockInfo Nat) × List StorageAccess :=
  match paginate_blocks store query with
  | .ok page => (.ok page, [.paginateBlocksQuery query])
  | .error err => (.error (.storage err), [.paginateBlocksQuery query])

/-- `ApiBlockData::transaction_page` (block.rs lines 78-95): builds the
composite cursor from the resolved block number and the `from` hash of
the incoming query, forwards limit and direction unchanged, and runs the
transaction pagination. -/
def transaction_page (store : Store) (block_number : Nat)
    (query : PaginationQuery Nat) :
    Except Error (Paginated Tx BlockAndTxHash) × List StorageAccess :=
  let new_query : PaginationQuery BlockAndTxHash :=
    { from_ := { block_number := block_number, tx_hash := query.from_ },
      limit := query.limit,
      direction := query.direction }
  match paginate_txs store new_query with
  | .ok page => (.ok page, [.paginateTxsQuery new_query])
  | .error err => (.error (.storage err), [.paginateTxsQuery new_query])

/-- `block_by_number` (block.rs lines 127-146): resolve the position; on
a resolution error return it at once; otherwise look the block up through
the cache and map the details to the public shape. -/
def block_by_number (store : Store) (cache : Cache) (block_position : String) :
    Except Error (Option BlockInfo) × Cache × List StorageAccess :=
  match get_block_number_by_position store block_position with
  | (.error err, accs) => (.error err, cache, accs)
  | (.ok block_number, accs) =>
    match block_info store cache block_number with
    | (.ok details, c, accs2) =>
      (.ok (details.map blockInfoOfDetails), c, accs ++ accs2)
    | (.error err, c, accs2) => (.error err, c, accs ++ accs2)

/-- `block_transactions` (block.rs lines 148-165): resolve the position;
on a resolution error return it at once; otherwise run the transaction
page for the resolved block. -/
def block_transactions (store : Store)
    (block_position : String) (query : PaginationQuery Nat) :
    Except Error (Paginated Tx BlockAndTxHash) × List StorageAccess :=
  match get_block_number_by_position store block_position with
  | (.error err, accs) => (.error err, accs)
  | (.ok block_number, accs) =>
    match transaction_page store block_number query with
    | (r, accs2) => (r, accs ++ accs2)


/-- A concrete store used by the witness theorems: five blocks, block 3
verified with three transactions, block 5 pending. -/
def sampleStore : Store where
  lastCommitted := .ok 5
  lastVerified := .ok 3
  blockDetails := fun n =>
    if n = 3 then .ok (some { block_number := 3, verified := true, payload := 30 })
    else if n = 5 then .ok (some { block_number := 5, verified := false, payload := 50 })
    else .ok none
  blocks := [⟨1, 10⟩, ⟨2, 20⟩, ⟨3, 30⟩, ⟨4, 40⟩, ⟨5, 50⟩]
  txs := [⟨100, 3⟩, ⟨101, 3⟩, ⟨102, 3⟩, ⟨200, 4⟩]
  pageErr := none

/-- The head of a non-empty all-digit character list is never the plus
sign. -/
theorem digits_head_ne_plus (cs : List Char)
    (hd : cs.all isAsciiDigit = true) : cs.head? ≠ some '+' := by
  cases cs with
  | nil => simp
  | cons c rest =>
    intro h
    simp only [List.head?, Option.some.injEq] at h
    subst h
    simp only [List.all_cons, Bool.and_eq_true] at hd
    exact absurd hd.1 (by decide)

/-- On a non-empty all-digit string, `u32_from_str` returns the decimal
value when it fits in 32 bits and fails otherwise. -/
theorem u32_from_str_digit_chars (s : String)
    (hd : s.toList.all isAsciiDigit = true) (hne : s.toList ≠ []) :
    u32_from_str s =
      if digitsVal s.toList < 4294967296 then some (digitsVal s.toList)
      else none := by
  unfold u32_from_str
  have hempty : s.toList.isEmpty = false := by
    cases h : s.toList with
    | nil => exact absurd h hne
    | cons c rest => rfl
  simp only [if_neg (digits_head_ne_plus s.toList hd), hempty,
    Bool.false_eq_true, if_false, hd, if_true]

/-- Claim C1: a position string made of decimal digits whose value fits
in a `u32` resolves directly to that value as the block number, with an
empty backing-store access trace. -/
theorem resolve_numeric_returns_parsed_without_storage (store : Store)
    (s : String) (hd : s.toList.all isAsciiDigit = true)
    (hne : s.toList ≠ []) (hlt : digitsVal s.toList < 4294967296) :
    get_block_number_by_position store s = (.ok (digitsVal s.toList), []) := by
  unfold get_block_number_by_position
  rw [u32_from_str_digit_chars s hd hne, if_pos hlt]

/-- Witness for C1 at the concrete position string 42. -/
theorem resolve_numeric_witness :
    get_block_number_by_position sampleStore "42" = (.ok 42, []) :=
  resolve_numeric_returns_parsed_without_storage sampleStore "42"
    (by decide) (by decide) (by decide)

/-- Resolution of a string that is neither `u32`-parseable nor a keyword
falls through to the invalid-position error. -/
theorem resolve_fallthrough (store : Store) (s : String)
    (hp : u32_from_str s = none)
    (h1 : s ≠ "last_committed") (h2 : s ≠ "last_finalized") :
    get_block_number_by_position store s =
      (.error .invalidBlockPosition, []) := by
  unfold get_block_number_by_position
  simp only [hp, if_neg h1, if_neg h2]

/-- Claim C2: a position string that neither parses as a `u32` nor is one
of the two keywords resolves to the `InvalidBlockPosition` error (the
invalid-input kind, and no other), with an empty access trace. -/
theorem resolve_unrecognized_invalid_input (store : Store) (s : String)
    (hp : u32_from_str s = none)
    (h1 : s ≠ "last_committed") (h2 : s ≠ "last_finalized") :
    get_block_number_by_position store s =
      (.error .invalidBlockPosition, []) :=
  resolve_fallthrough store s hp h1 h2

/-- Witness for C2 at the concrete position string abc. -/
theorem resolve_unrecognized_witness :
    get_block_number_by_position sampleStore "abc" =
      (.error .invalidBlockPosition, []) :=
  resolve_unrecognized_invalid_input sampleStore "abc"
    (by decide) (by decide) (by decide)

/-- Claim C3: the keyword positions query the store on every call (the
access trace of each call holds the corresponding query), return exactly
the current store value, and wrap any store error as a storage failure. -/
theorem resolve_symbolic_queries_store_each_call (store : Store) :
    (get_block_number_by_position store "last_committed" =
      match store.lastCommitted with
      | .ok number => (.ok number, [.lastCommittedQuery])
      | .error err => (.error (.storage err), [.lastCommittedQuery]))
    ∧ (get_block_number_by_position store "last_finalized" =
      match store.lastVerified with
      | .ok number => (.ok number, [.lastVerifiedQuery])
      | .error err => (.error (.storage err), [.lastVerifiedQuery])) := by
  have hc : u32_from_str "last_committed" = none := by decide
  have hf : u32_from_str "last_finalized" = none := by decide
  constructor
  · unfold get_block_number_by_position
    simp only [hc]
    rw [if_pos trivial]
  · unfold get_block_number_by_position
    have hne : ("last_finalized" : String) ≠ "last_committed" := by decide
    simp only [hf, if_neg hne]
    rw [if_pos trivial]

/-- Claim C5: the transaction-page facade always hands the pagination
engine exactly the composite query whose cursor is the resolved block
number paired with the `from` hash of the incoming query, with limit and
direction forwarded unchanged. -/
theorem transaction_page_forwards_composite_query (store : Store)
    (block_number : Nat) (query : PaginationQuery Nat) :
    (transaction_page store block_number query).2 =
      [StorageAccess.paginateTxsQuery
        { from_ := { block_number := block_number, tx_hash := query.from_ },
          limit := query.limit,
          direction := query.direction }] := by
  unfold transaction_page
  cases h : paginate_txs store
      { from_ := { block_number := block_number, tx_hash := query.from_ },
        limit := query.limit, direction := query.direction } <;>
    simp [h]

/-- Claim C10: an all-digit position string whose value exceeds the
`u32` range does not resolve to that number and touches no storage: it
falls through to the `InvalidBlockPosition` error with an empty access
trace. -/
theorem resolve_numeric_overflow_invalid (store : Store) (s : String)
    (hd : s.toList.all isAsciiDigit = true)
    (hge : 4294967296 ≤ digitsVal s.toList) :
    get_block_number_by_position store s =
      (.error .invalidBlockPosition, []) := by
  have hne : s.toList ≠ [] := by
    intro h
    rw [h] at hge
    exact absurd hge (by decide)
  have hp : u32_from_str s = none := by
    rw [u32_from_str_digit_chars s hd hne, if_neg (not_lt.mpr hge)]
  have h1 : s ≠ "last_committed" := by
    intro h
    subst h
    exact absurd hd (by decide)
  have h2 : s ≠ "last_finalized" := by
    intro h
    subst h
    exact absurd hd (by decide)
  exact resolve_fallthrough store s hp h1 h2


/-- Witness for C10 at the concrete position string 4294967296. -/
theorem resolve_overflow_witness :
    get_block_number_by_position sampleStore "4294967296" =
      (.error .invalidBlockPosition, []) :=
  resolve_numeric_overflow_invalid sampleStore "4294967296"
    (by decide) (by decide)

/-- The access trace of a resolution call is empty or a single keyword
query: it never holds a block-details or pagination access. -/
theorem resolve_trace_cases (store : Store) (s : String) :
    (get_block_number_by_position store s).2 = []
    ∨ (get_block_number_by_position store s).2 = [.lastCommittedQuery]
    ∨ (get_block_number_by_position store s).2 = [.lastVerifiedQuery] := by
  unfold get_block_number_by_position
  rcases h : u32_from_str s with _ | n
  · simp only [h]
    by_cases h1 : s = "last_committed"
    · rw [if_pos h1]
      cases store.lastCommitted <;> simp
    · rw [if_neg h1]
      by_cases h2 : s = "last_finalized"
      · rw [if_pos h2]
        cases store.lastVerified <;> simp
      · rw [if_neg h2]
        simp
  · simp [h]

/-- Claim C4: when position resolution fails, both handlers return that
error at once with the cache untouched and the trace of the resolution
alone, and that trace holds no cache-backing or pagination access, so the
subsequent step was never attempted and no page accompanies the error. -/
theorem resolution_error_short_circuits (store : Store) (cache : Cache)
    (block_position : String) (query : PaginationQuery Nat) (err : Error)
    (accs : List StorageAccess)
    (h : get_block_number_by_position store block_position =
      (.error err, accs)) :
    (block_by_number store cache block_position = (.error err, cache, accs)
      ∧ block_transactions store block_position query = (.error err, accs))
    ∧ (∀ n, StorageAccess.blockDetailsQuery n ∉ accs)
    ∧ (∀ q, StorageAccess.paginateTxsQuery q ∉ accs)
    ∧ (∀ q, StorageAccess.paginateBlocksQuery q ∉ accs) := by
  have htr0 := resolve_trace_cases store block_position
  rw [h] at htr0
  have htr : accs = [] ∨ accs = [.lastCommittedQuery]
      ∨ accs = [.lastVerifiedQuery] := htr0
  refine ⟨⟨?_, ?_⟩, ?_, ?_, ?_⟩
  · unfold block_by_number
    rw [h]
  · unfold block_transactions
    rw [h]
  all_goals
    rcases htr with rfl | rfl | rfl <;> intro x <;> simp

/-- Witness for C4 at a concrete invalid position. -/
theorem resolution_error_short_circuits_witness :
    (block_by_number sampleStore [] "bogus" =
        (.error .invalidBlockPosition, ([] : Cache), [])
      ∧ block_transactions sampleStore "bogus" ⟨100, 2, .older⟩ =
        (.error .invalidBlockPosition, []))
    ∧ (∀ n, StorageAccess.blockDetailsQuery n ∉ ([] : List StorageAccess))
    ∧ (∀ q, StorageAccess.paginateTxsQuery q ∉ ([] : List StorageAccess))
    ∧ (∀ q, StorageAccess.paginateBlocksQuery q ∉ ([] : List StorageAccess)) :=
  resolution_error_short_circuits sampleStore [] "bogus" ⟨100, 2, .older⟩
    Error.invalidBlockPosition [] (by rfl)

/-- Every element of a page slice comes from the in-scope sequence. -/
theorem pageSlice_subset {α : Type} (inScope : List α) (idx limit : Nat)
    (d : PaginationDirection) (a : α) (ha : a ∈ pageSlice inScope idx limit d) :
    a ∈ inScope := by
  cases d with
  | newer =>
    exact List.mem_of_mem_drop (List.mem_of_mem_take ha)
  | older =>
    rw [pageSlice, List.mem_reverse] at ha
    exact List.mem_of_mem_take (List.mem_reverse.mp (List.mem_of_mem_take ha))

/-- A page slice never exceeds the limit. -/
theorem pageSlice_length_le {α : Type} (inScope : List α) (idx limit : Nat)
    (d : PaginationDirection) : (pageSlice inScope idx limit d).length ≤ limit := by
  cases d with
  | newer =>
    rw [pageSlice, List.length_take]
    exact min_le_left _ _
  | older =>
    rw [pageSlice, List.length_reverse, List.length_take]
    exact min_le_left _ _

/-- A block slice never exceeds the limit. -/
theorem blockSlice_length_le (blocks : List BlockInfo) (cursor limit : Nat)
    (d : PaginationDirection) : (blockSlice blocks cursor limit d).length ≤ limit := by
  cases d with
  | newer =>
    rw [blockSlice, List.length_take]
    exact min_le_left _ _
  | older =>
    rw [blockSlice, List.length_reverse, List.length_take]
    exact min_le_left _ _

/-- Every transaction on a successful engine page belongs to the block
named by the composite cursor. -/
theorem paginate_txs_scoped (store : Store)
    (query : PaginationQuery BlockAndTxHash)
    (page : Paginated Tx BlockAndTxHash)
    (h : paginate_txs store query = .ok page) :
    ∀ t ∈ page.list, t.block_number = query.from_.block_number := by
  unfold paginate_txs at h
  rcases hpe : store.pageErr with _ | err
  · rw [hpe] at h
    simp only [Except.ok.injEq] at h
    subst h
    intro t ht
    have hmem := pageSlice_subset _ _ _ _ t ht
    rw [txScope, List.mem_filter] at hmem
    simpa using hmem.2
  · rw [hpe] at h
    exact Except.noConfusion h

/-- Claim C6: a successful transaction page obtained through the facade
for block number `b` holds only transactions whose block number is `b`,
whatever the direction and hash components of the query. -/
theorem tx_page_scoped_to_block (store : Store) (block_number : Nat)
    (query : PaginationQuery Nat) (page : Paginated Tx BlockAndTxHash)
    (h : (transaction_page store block_number query).1 = .ok page) :
    ∀ t ∈ page.list, t.block_number = block_number := by
  unfold transaction_page at h
  cases hp : paginate_txs store
      { from_ := { block_number := block_number, tx_hash := query.from_ },
        limit := query.limit, direction := query.direction } with
  | error err =>
    simp only [hp] at h
    exact Except.noConfusion h
  | ok p =>
    simp only [hp, Except.ok.injEq] at h
    subst h
    exact paginate_txs_scoped store _ p hp

/-- Witness for C6 at a concrete page of block 3 and its one listed
transaction. -/
theorem tx_page_scoped_witness : (⟨100, 3⟩ : Tx).block_number = 3 :=
  tx_page_scoped_to_block sampleStore 3 ⟨101, 2, .older⟩
    { list := [⟨100, 3⟩], count := 3, limit := 2,
      direction := .older, from_ := ⟨3, 101⟩ } (by rfl)
    ⟨100, 3⟩ (by decide)

/-- Claim C7: every successful page, of the block listing as of the
transaction listing, holds at most `limit` items, and its `count` is the
total size of the scope (all blocks, or all transactions of the block at
the cursor), independent of the limit. -/
theorem paginated_length_le_and_count_total (store : Store) :
    (∀ (query : PaginationQuery Nat) (page : Paginated BlockInfo Nat),
      paginate_blocks store query = .ok page →
      page.list.length ≤ query.limit ∧ page.count = store.blocks.length)
    ∧ (∀ (query : PaginationQuery BlockAndTxHash)
        (page : Paginated Tx BlockAndTxHash),
      paginate_txs store query = .ok page →
      page.list.length ≤ query.limit
        ∧ page.count = (txScope store query.from_.block_number).length) := by
  constructor
  · intro query page h
    unfold paginate_blocks at h
    rcases hpe : store.pageErr with _ | err
    · rw [hpe] at h
      simp only [Except.ok.injEq] at h
      subst h
      exact ⟨blockSlice_length_le _ _ _ _, rfl⟩
    · rw [hpe] at h
      exact Except.noConfusion h
  · intro query page h
    unfold paginate_txs at h
    rcases hpe : store.pageErr with _ | err
    · rw [hpe] at h
      simp only [Except.ok.injEq] at h
      subst h
      exact ⟨pageSlice_length_le _ _ _ _, rfl⟩
    · rw [hpe] at h
      exact Except.noConfusion h

/-- Witness for C7 at a concrete block-listing page. -/
theorem paginated_length_le_and_count_total_witness :
    ({ list := [⟨2, 20⟩, ⟨3, 30⟩, ⟨4, 40⟩], count := 5, limit := 3,
       direction := .newer, from_ := 1 } :
      Paginated BlockInfo Nat).list.length ≤ 3
    ∧ ({ list := [⟨2, 20⟩, ⟨3, 30⟩, ⟨4, 40⟩], count := 5, limit := 3,
         direction := .newer, from_ := 1 } :
        Paginated BlockInfo Nat).count = 5 :=
  (paginated_length_le_and_count_total sampleStore).1 ⟨1, 3, .newer⟩ _ (by rfl)

/-- Claim C8: on a cache miss for a block the store reports as verified,
the call returns the details, caches them, and a second call returns the
bit-identical details from the cache with an empty backing trace; for a
pending block the details are returned but the cache is left unchanged,
so a repeat call on the resulting state queries the store afresh. -/
theorem cache_finalized_idempotent_pending_uncached (store : Store)
    (cache : Cache) (n : Nat) (d : BlockDetails)
    (hstore : store.blockDetails n = .ok (some d))
    (hmiss : List.lookup n cache = none) :
    (d.verified = true →
      block_info store cache n =
        (.ok (some d), (n, d) :: cache, [.blockDetailsQuery n])
      ∧ block_info store ((n, d) :: cache) n =
        (.ok (some d), (n, d) :: cache, []))
    ∧ (d.verified = false →
      block_info store cache n = (.ok (some d), cache, [.blockDetailsQuery n])) := by
  constructor
  · intro hv
    constructor
    · unfold block_info cache_get
      simp [hmiss, hstore, hv]
    · unfold block_info cache_get
      simp [List.lookup]
  · intro hv
    unfold block_info cache_get
    simp [hmiss, hstore, hv]

/-- Witness for C8 at the verified block 3 of the sample store. -/
theorem cache_finalized_idempotent_witness :
    block_info sampleStore [] 3 =
      (.ok (some ⟨3, true, 30⟩), [(3, ⟨3, true, 30⟩)], [.blockDetailsQuery 3])
    ∧ block_info sampleStore [(3, ⟨3, true, 30⟩)] 3 =
      (.ok (some ⟨3, true, 30⟩), [(3, ⟨3, true, 30⟩)], []) :=
  (cache_finalized_idempotent_pending_uncached sampleStore [] 3
    ⟨3, true, 30⟩ (by rfl) (by rfl)).1 (by rfl)

/-- Claim C9: when the store has no block under a number, the cached
lookup returns absence rather than an error and leaves the cache without
any entry for that number, and the get-block handler at any numeric
position resolving to that number likewise returns absence with the cache
unchanged. -/
theorem unknown_block_absent_not_cached (store : Store) (cache : Cache)
    (n : Nat) (hstore : store.blockDetails n = .ok none)
    (hmiss : List.lookup n cache = none) :
    block_info store cache n = (.ok none, cache, [.blockDetailsQuery n])
    ∧ ∀ s, u32_from_str s = some n →
        block_by_number store cache s =
          (.ok none, cache, [.blockDetailsQuery n]) := by
  have hbi : block_info store cache n =
      (.ok none, cache, [.blockDetailsQuery n]) := by
    unfold block_info cache_get
    simp [hmiss, hstore]
  refine ⟨hbi, ?_⟩
  intro s hs
  unfold block_by_number get_block_number_by_position
  simp only [hs, hbi]
  rfl

/-- Witness for C9 at block number 999 of the sample store. -/
theorem unknown_block_witness :
    block_by_number sampleStore [] "999" =
      (.ok none, ([] : Cache), [.blockDetailsQuery 999]) :=
  (unknown_block_absent_not_cached sampleStore [] 999
    (by rfl) (by rfl)).2 "999" (by decide)
